import Mathlib

/-!
Verification of the agent-bridge coordination store (src/server.py).

The store keeps three pieces of state: a message list, a task list and a
single shared-context record. Each tool of the dispatcher (`call_tool`) is
embedded as a pure function from the state (plus the explicit effect inputs
it consumes: each `datetime.now()` sample becomes a `Nat` clock parameter,
each `uuid4().hex[:9]` draw becomes a `String` parameter) to the new state
and a structured result.
-/

namespace Bridge

/-- A stored message (src/server.py dict literal, lines 153-160).
The Python key `from` is a Lean keyword, embedded as `fromAgent`. -/
structure Message where
  id : String
  fromAgent : String
  toAgent : String
  content : String
  timestamp : Nat
  read : Bool
  deriving DecidableEq, Repr

/-- A stored task (src/server.py dict literal, lines 182-193). The opaque
JSON `context` payload is embedded as a key/value list. -/
structure Task where
  id : String
  title : String
  description : String
  assignedTo : String
  createdBy : String
  status : String
  priority : String
  createdAt : Nat
  updatedAt : Nat
  context : List (String × String)
  deriving DecidableEq, Repr

/-- The singleton shared context (src/server.py lines 20-26). -/
structure SharedContext where
  currentBranch : String
  activeFiles : List String
  recentChanges : List String
  notes : String
  lastUpdated : Nat
  deriving DecidableEq, Repr

/-- The whole in-memory storage (src/server.py lines 17-26). -/
structure State where
  messages : List Message
  tasks : List Task
  shared_context : SharedContext
  deriving DecidableEq, Repr

/-- Structured results of `call_tool`, one constructor per JSON payload
shape the Python handler serializes. -/
inductive ToolResult where
  | sendOk (messageId : String)
  | messagesList (count : Nat) (msgs : List Message)
  | markOk (markedRead : Nat)
  | createOk (taskId : String)
  | tasksList (count : Nat) (tasks : List Task)
  | updateOk (task : Task)
  | contextOk (ctx : SharedContext)
  | announceOk
  | error (msg : String)
  deriving DecidableEq, Repr

/-- `generate_id` (src/server.py lines 28-29): millisecond timestamp,
hyphen, 9-character random hex suffix. The clock sample `t` and the random
draw `r` are explicit inputs. -/
def generate_id (t : Nat) (r : String) : String :=
  toString t ++ "-" ++ r

/-- `send_message` branch (src/server.py lines 152-162). -/
def send_message (fromAgent toAgent content : String) (tId : Nat)
    (rId : String) (tMsg : Nat) (s : State) : State × ToolResult :=
  let message : Message :=
    { id := generate_id tId rId, fromAgent := fromAgent, toAgent := toAgent,
      content := content, timestamp := tMsg, read := false }
  ({ s with messages := s.messages ++ [message] }, .sendOk message.id)

/-- `get_messages` branch (src/server.py lines 164-170); `unreadOnly`
defaults to `false` when absent. -/
def get_messages (agent : String) (unreadOnly : Option Bool) (s : State) :
    State × ToolResult :=
  let filtered := s.messages.filter (fun m => m.toAgent == agent || m.toAgent == "all")
  let filtered :=
    if unreadOnly.getD false then filtered.filter (fun m => !m.read)
    else filtered
  (s, .messagesList filtered.length filtered)

/-- `mark_messages_read` branch (src/server.py lines 172-179): the loop
sets `read := true` on every message whose id is in `ids` and increments
the counter for every such message, already-read or not. -/
def markOne (ids : List String) (m : Message) : Message :=
  if ids.contains m.id then { m with read := true } else m

def mark_messages_read (ids : List String) (s : State) : State × ToolResult :=
  let msgs := s.messages.map (markOne ids)
  let marked := s.messages.countP (fun m => ids.contains m.id)
  ({ s with messages := msgs }, .markOk marked)

/-- Notification body synthesized by `create_task`
(src/server.py line 200). -/
def taskNotificationContent (title priority : String) : String :=
  "📋 New task: \"" ++ title ++ "\" (" ++ priority ++ ")"

/-- `create_task` branch (src/server.py lines 181-204). `createdAt` and
`updatedAt` come from two separate `datetime.now()` calls, hence the two
clock parameters `tCreated` and `tUpdated`. -/
def create_task (title description assignedTo createdBy : String)
    (priority : Option String) (context : Option (List (String × String)))
    (tTaskId : Nat) (rTask : String) (tCreated tUpdated : Nat)
    (tMsgId : Nat) (rMsg : String) (tMsg : Nat) (s : State) :
    State × ToolResult :=
  let task : Task :=
    { id := generate_id tTaskId rTask, title := title,
      description := description, assignedTo := assignedTo,
      createdBy := createdBy, status := "pending",
      priority := priority.getD "medium", createdAt := tCreated,
      updatedAt := tUpdated, context := context.getD [] }
  let notif : Message :=
    { id := generate_id tMsgId rMsg, fromAgent := task.createdBy,
      toAgent := task.assignedTo,
      content := taskNotificationContent task.title task.priority,
      timestamp := tMsg, read := false }
  ({ s with
      tasks := s.tasks ++ [task],
      messages := s.messages ++ [notif] },
    .createOk task.id)

/-- `get_tasks` branch (src/server.py lines 206-219); `filter` defaults to
`"assigned"`, `status` to `"all"`. -/
def get_tasks (agent : String) (filter status : Option String) (s : State) :
    State × ToolResult :=
  let filterType := filter.getD "assigned"
  let statusFilter := status.getD "all"
  let filtered := s.tasks
  let filtered :=
    if filterType == "assigned" then
      filtered.filter (fun t => t.assignedTo == agent)
    else if filterType == "created" then
      filtered.filter (fun t => t.createdBy == agent)
    else filtered
  let filtered :=
    if statusFilter != "all" then
      filtered.filter (fun t => t.status == statusFilter)
    else filtered
  (s, .tasksList filtered.length filtered)

/-- Completion notification body synthesized by `update_task`
(src/server.py line 237); the notes suffix is appended only when `notes`
is non-empty (Python truthiness of the defaulted string). -/
def completionContent (title notes : String) : String :=
  "✅ Completed: \"" ++ title ++ "\"" ++
    (if notes == "" then "" else " - " ++ notes)

/-- Replace the first task whose id is `taskId` (the Python code mutates
the dict found by `next(...)` in place). -/
def setTask (taskId : String) (task' : Task) : List Task → List Task
  | [] => []
  | t :: ts => if t.id == taskId then task' :: ts else t :: setTask taskId task' ts

/-- `update_task` branch (src/server.py lines 221-242). The completion
message is appended exactly when the supplied `status` argument equals
`"completed"` (`arguments.get("status") == "completed"`). -/
def update_task (taskId : String) (status notes : Option String)
    (tUpdated : Nat) (tMsgId : Nat) (rMsg : String) (tMsg : Nat)
    (s : State) : State × ToolResult :=
  match s.tasks.find? (fun t => t.id == taskId) with
  | none => (s, .error "Task not found")
  | some task =>
    let task' : Task :=
      { task with status := status.getD task.status, updatedAt := tUpdated }
    let s' := { s with tasks := setTask taskId task' s.tasks }
    if status == some "completed" then
      let notesStr := (notes.getD "")
      let msg : Message :=
        { id := generate_id tMsgId rMsg, fromAgent := task'.assignedTo,
          toAgent := task'.createdBy,
          content := completionContent task'.title notesStr,
          timestamp := tMsg, read := false }
      ({ s' with messages := s'.messages ++ [msg] }, .updateOk task')
    else (s', .updateOk task')

/-- `update_context` branch (src/server.py lines 244-254): each field is
overwritten exactly when present; `lastUpdated` is always refreshed. -/
def update_context (currentBranch : Option String)
    (activeFiles recentChanges : Option (List String))
    (notes : Option String) (tNow : Nat) (s : State) : State × ToolResult :=
  let ctx := s.shared_context
  let ctx := match currentBranch with
    | some v => { ctx with currentBranch := v }
    | none => ctx
  let ctx := match activeFiles with
    | some v => { ctx with activeFiles := v }
    | none => ctx
  let ctx := match recentChanges with
    | some v => { ctx with recentChanges := v }
    | none => ctx
  let ctx := match notes with
    | some v => { ctx with notes := v }
    | none => ctx
  let ctx := { ctx with lastUpdated := tNow }
  ({ s with shared_context := ctx }, .contextOk ctx)

/-- `get_context` branch (src/server.py lines 256-257). -/
def get_context (s : State) : State × ToolResult :=
  (s, .contextOk s.shared_context)

/-- Presence broadcast body (src/server.py line 264). -/
def announceContent (agent status : String) : String :=
  "🟢 " ++ agent ++ " online: " ++ status

/-- `announce_presence` branch (src/server.py lines 259-268); `workingOn`
is accepted but unused. -/
def announce_presence (agent status : String)
    (workingOn : Option (List String)) (tId : Nat) (rId : String)
    (tMsg : Nat) (s : State) : State × ToolResult :=
  let _ := workingOn
  let msg : Message :=
    { id := generate_id tId rId, fromAgent := agent, toAgent := "all",
      content := announceContent agent status, timestamp := tMsg,
      read := false }
  ({ s with messages := s.messages ++ [msg] }, .announceOk)

/-- One operation of the catalog, bundling the tool's arguments with the
effect inputs (clock samples, random draws) its handler consumes. -/
inductive Op where
  | send_message (fromAgent toAgent content : String) (tId : Nat)
      (rId : String) (tMsg : Nat)
  | get_messages (agent : String) (unreadOnly : Option Bool)
  | mark_messages_read (messageIds : List String)
  | create_task (title description assignedTo createdBy : String)
      (priority : Option String) (context : Option (List (String × String)))
      (tTaskId : Nat) (rTask : String) (tCreated tUpdated : Nat)
      (tMsgId : Nat) (rMsg : String) (tMsg : Nat)
  | get_tasks (agent : String) (filter status : Option String)
  | update_task (taskId : String) (status notes : Option String)
      (tUpdated : Nat) (tMsgId : Nat) (rMsg : String) (tMsg : Nat)
  | update_context (currentBranch : Option String)
      (activeFiles recentChanges : Option (List String))
      (notes : Option String) (tNow : Nat)
  | get_context
  | announce_presence (agent status : String)
      (workingOn : Option (List String)) (tId : Nat) (rId : String)
      (tMsg : Nat)
  deriving DecidableEq, Repr

/-- Dispatch of `call_tool` (src/server.py lines 148-270) over the
operation catalog. -/
def applyOp : Op → State → State × ToolResult
  | .send_message f t c tId rId tMsg, s => send_message f t c tId rId tMsg s
  | .get_messages a u, s => get_messages a u s
  | .mark_messages_read ids, s => mark_messages_read ids s
  | .create_task ti d a c p cx tT rT tC tU tM rM tMs, s =>
      create_task ti d a c p cx tT rT tC tU tM rM tMs s
  | .get_tasks a f st, s => get_tasks a f st s
  | .update_task id st n tU tM rM tMs, s => update_task id st n tU tM rM tMs s
  | .update_context cb af rc n t, s => update_context cb af rc n t s
  | .get_context, s => get_context s
  | .announce_presence a st w tId rId tMsg, s =>
      announce_presence a st w tId rId tMsg s

/-- The initial storage (src/server.py lines 17-26), parameterized by the
startup clock sample used for `lastUpdated`. -/
def initialState (t0 : Nat) : State :=
  { messages := [], tasks := [],
    shared_context :=
      { currentBranch := "", activeFiles := [], recentChanges := [],
        notes := "", lastUpdated := t0 } }

/-! ## Spec-side definitions (refinement targets, written from the spec's
words, to be compared with the source embeddings above) -/

/-- Spec side of `get_messages`: "every message whose `to` equals `agent`
or equals the broadcast value; if `unreadOnly`, further restricts to
`read=false`", as one combined filter in insertion order. -/
def specGetMessages (agent : String) (unreadOnly : Bool)
    (msgs : List Message) : List Message :=
  msgs.filter (fun m =>
    (m.toAgent == agent || m.toAgent == "all") && (!unreadOnly || !m.read))

/-- Spec side of `get_tasks`: role filter by `assignedTo==agent`
(filter=assigned), `createdBy==agent` (filter=created) or none, then exact
status match unless status=all, as one combined filter. -/
def specGetTasks (agent ft st : String) (tasks : List Task) : List Task :=
  tasks.filter (fun t =>
    (if ft == "assigned" then t.assignedTo == agent
     else if ft == "created" then t.createdBy == agent
     else true) &&
    (if st == "all" then true else t.status == st))

/-- `sub` occurs as a contiguous substring of `s`. -/
def ContainsStr (s sub : String) : Prop :=
  ∃ a b : String, s = a ++ sub ++ b

/-! ## Decimal identifiers: decoding `Nat.repr` -/

/-- Numeric value of a decimal digit character. -/
def charVal (c : Char) : Nat := c.toNat - '0'.toNat

/-- Decode a list of decimal digit characters, most significant first. -/
def decodeDigits (l : List Char) : Nat :=
  l.foldl (fun a c => a * 10 + charVal c) 0

theorem charVal_digitChar : ∀ m, m < 10 → charVal (Nat.digitChar m) = m := by
  decide

theorem toDigitsCore_append (b : Nat) :
    ∀ (f n : Nat) (l : List Char),
      Nat.toDigitsCore b f n l = Nat.toDigitsCore b f n [] ++ l := by
  intro f
  induction f with
  | zero => intro n l; simp [Nat.toDigitsCore]
  | succ f ih =>
    intro n l
    simp only [Nat.toDigitsCore]
    by_cases h0 : n / b = 0
    · simp [h0]
    · simp only [h0, if_false]
      rw [ih (n / b) (Nat.digitChar (n % b) :: l),
        ih (n / b) [Nat.digitChar (n % b)], List.append_assoc]
      rfl

theorem decodeDigits_append_singleton (l : List Char) (c : Char) :
    decodeDigits (l ++ [c]) = decodeDigits l * 10 + charVal c := by
  simp [decodeDigits, List.foldl_append]

theorem decode_toDigitsCore :
    ∀ (f n : Nat), n < f →
      decodeDigits (Nat.toDigitsCore 10 f n []) = n := by
  intro f
  induction f with
  | zero => intro n h; omega
  | succ f ih =>
    intro n h
    simp only [Nat.toDigitsCore]
    by_cases h0 : n / 10 = 0
    · have hn : n < 10 := by omega
      simp only [h0, if_true]
      have : decodeDigits [Nat.digitChar (n % 10)] = charVal (Nat.digitChar (n % 10)) := by
        simp [decodeDigits]
      rw [this, charVal_digitChar (n % 10) (Nat.mod_lt _ (by norm_num))]
      omega
    · simp only [h0, if_false]
      rw [show (Nat.digitChar (n % 10) :: ([] : List Char)) =
            [Nat.digitChar (n % 10)] from rfl,
        toDigitsCore_append 10 f (n / 10) [Nat.digitChar (n % 10)],
        decodeDigits_append_singleton,
        ih (n / 10) (by
          have h1 : n / 10 < n := Nat.div_lt_self (by omega) (by norm_num)
          omega),
        charVal_digitChar (n % 10) (Nat.mod_lt _ (by norm_num))]
      omega

theorem decode_repr (n : Nat) : decodeDigits (Nat.repr n).data = n :=
  decode_toDigitsCore (n + 1) n (Nat.lt_succ_self n)

theorem repr_injective : Function.Injective Nat.repr := by
  intro a b h
  have := congrArg (fun s => decodeDigits (String.data s)) h
  simpa [decode_repr] using this

theorem digitChar_ne_hyphen : ∀ m, m < 10 → Nat.digitChar m ≠ '-' := by
  decide

theorem hyphen_not_mem_toDigitsCore :
    ∀ (f n : Nat) (l : List Char), '-' ∉ l →
      '-' ∉ Nat.toDigitsCore 10 f n l := by
  intro f
  induction f with
  | zero => intro n l h; simpa [Nat.toDigitsCore] using h
  | succ f ih =>
    intro n l h
    have hcons : '-' ∉ Nat.digitChar (n % 10) :: l := by
      intro hm
      rcases List.mem_cons.mp hm with h1 | h1
      · exact digitChar_ne_hyphen (n % 10) (Nat.mod_lt _ (by norm_num)) h1.symm
      · exact h h1
    simp only [Nat.toDigitsCore]
    by_cases h0 : n / 10 = 0
    · simp only [h0, if_true]; exact hcons
    · simp only [h0, if_false]
      exact ih (n / 10) (Nat.digitChar (n % 10) :: l) hcons

theorem hyphen_not_mem_repr (n : Nat) : '-' ∉ (Nat.repr n).data :=
  hyphen_not_mem_toDigitsCore (n + 1) n [] (by simp)

theorem append_hyphen_cancel :
    ∀ (l1 l2 t1 t2 : List Char),
      l1 ++ '-' :: t1 = l2 ++ '-' :: t2 → '-' ∉ l1 → '-' ∉ l2 →
      l1 = l2 ∧ t1 = t2 := by
  intro l1
  induction l1 with
  | nil =>
    intro l2 t1 t2 h h1 h2
    cases l2 with
    | nil => simpa using h
    | cons y l2 =>
      simp only [List.nil_append, List.cons_append, List.cons.injEq] at h
      exact absurd (by simp [← h.1]) h2
  | cons x l1 ih =>
    intro l2 t1 t2 h h1 h2
    cases l2 with
    | nil =>
      simp only [List.cons_append, List.nil_append, List.cons.injEq] at h
      exact absurd (by simp [h.1]) h1
    | cons y l2 =>
      simp only [List.cons_append, List.cons.injEq] at h
      obtain ⟨rfl, h⟩ := h
      have := ih l2 t1 t2 h
        (fun hm => h1 (List.mem_cons_of_mem _ hm))
        (fun hm => h2 (List.mem_cons_of_mem _ hm))
      exact ⟨by rw [this.1], this.2⟩

theorem generate_id_data (t : Nat) (r : String) :
    (generate_id t r).data = (Nat.repr t).data ++ '-' :: r.data := by
  show ((toString t ++ "-" ++ r)).data = _
  rw [String.data_append, String.data_append]
  show (Nat.repr t).data ++ ['-'] ++ r.data = _
  rw [List.append_assoc]
  rfl

theorem generate_id_inj {t1 t2 : Nat} {r1 r2 : String}
    (h : generate_id t1 r1 = generate_id t2 r2) : t1 = t2 ∧ r1 = r2 := by
  have hd := congrArg String.data h
  rw [generate_id_data, generate_id_data] at hd
  obtain ⟨h1, h2⟩ := append_hyphen_cancel _ _ _ _ hd
    (hyphen_not_mem_repr t1) (hyphen_not_mem_repr t2)
  exact ⟨repr_injective (String.ext h1), String.ext h2⟩

/-- Recover the millisecond timestamp embedded in a generated id: decode
the decimal digits before the first hyphen. -/
def idTimestamp (id : String) : Nat :=
  decodeDigits (id.data.takeWhile (fun c => c != '-'))

theorem takeWhile_append_hyphen (l1 l2 : List Char) (h : '-' ∉ l1) :
    (l1 ++ '-' :: l2).takeWhile (fun c => c != '-') = l1 := by
  induction l1 with
  | nil => simp [List.takeWhile_cons]
  | cons x l1 ih =>
    have hx : (x != '-') = true := by
      simp only [bne_iff_ne, ne_eq]
      exact fun hh => h (by simp [hh])
    simp only [List.cons_append, List.takeWhile_cons, hx, if_true,
      List.cons.injEq, true_and]
    exact ih (fun hm => h (List.mem_cons_of_mem _ hm))

theorem idTimestamp_generate_id (t : Nat) (r : String) :
    idTimestamp (generate_id t r) = t := by
  rw [idTimestamp, generate_id_data,
    takeWhile_append_hyphen _ _ (hyphen_not_mem_repr t), decode_repr]

/-! ## Shared helper lemmas -/

theorem get_messages_eq_spec (agent : String) (u : Option Bool) (s : State) :
    get_messages agent u s =
      (s, .messagesList
        (specGetMessages agent (u.getD false) s.messages).length
        (specGetMessages agent (u.getD false) s.messages)) := by
  unfold get_messages specGetMessages
  rcases hu : u.getD false with _ | _
  · simp
  · have hAB :
        List.filter (fun a => !a.read && (a.toAgent == agent || a.toAgent == "all"))
          s.messages =
        List.filter (fun m => (m.toAgent == agent || m.toAgent == "all") && !m.read)
          s.messages :=
      List.filter_congr (fun m _ => by rw [Bool.and_comm])
    simp only [hu, if_true, List.filter_filter, Bool.not_true, Bool.false_or]
    rw [hAB]

theorem containsStr_refl_of_append (a sub b : String) :
    ContainsStr (a ++ sub ++ b) sub := ⟨a, b, rfl⟩

theorem containsStr_self (s : String) : ContainsStr s s :=
  ⟨"", "", by simp⟩

/-! ## C3: identifier generation -/

/-- C3 counterexample: two generation calls in the same millisecond that
draw the same random suffix (the clock 5 ≤ 5 is non-decreasing, so the
trace is possible) return the SAME id, so ids are not guaranteed pairwise
distinct over the store's lifetime. -/
theorem C3_counterexample :
    ¬ ((([(5, "aaaaaaaaa"), (5, "aaaaaaaaa")] : List (Nat × String)).map
      (fun p => generate_id p.1 p.2)).Pairwise (fun a b => a ≠ b)) := by
  decide

/-- C3 amended: two calls return the same id exactly when both the clock
sample and the random suffix coincide; the id embeds its millisecond
timestamp recoverably (`idTimestamp`), so the embedded timestamps are
monotonically non-decreasing whenever the clock samples are. Uniqueness is
therefore guaranteed only for calls whose (timestamp, random) inputs
differ, not unconditionally. -/
theorem C3_generate_id_amended (t1 t2 : Nat) (r1 r2 : String) :
    (generate_id t1 r1 = generate_id t2 r2 ↔ t1 = t2 ∧ r1 = r2) ∧
    idTimestamp (generate_id t1 r1) = t1 ∧
    (t1 ≤ t2 → idTimestamp (generate_id t1 r1) ≤ idTimestamp (generate_id t2 r2)) := by
  refine ⟨⟨fun h => generate_id_inj h, fun h => by rw [h.1, h.2]⟩,
    idTimestamp_generate_id t1 r1, fun h => ?_⟩
  rw [idTimestamp_generate_id, idTimestamp_generate_id]
  exact h

/-- C3 witness: the amended theorem instantiated at concrete calls. -/
theorem C3_generate_id_amended_witness :
    (generate_id 3 "abc" = generate_id 7 "xyz" ↔ 3 = 7 ∧ "abc" = "xyz") ∧
    idTimestamp (generate_id 3 "abc") = 3 ∧
    (3 ≤ 7 → idTimestamp (generate_id 3 "abc") ≤ idTimestamp (generate_id 7 "xyz")) :=
  C3_generate_id_amended 3 7 "abc" "xyz"

/-! ## C1: mark_messages_read -/

def cexC1_msg : Message :=
  { id := "5-x", fromAgent := "a", toAgent := "b", content := "hi",
    timestamp := 5, read := false }

def cexC1_state : State :=
  { messages := [cexC1_msg], tasks := [],
    shared_context := (initialState 0).shared_context }

/-- C1 counterexample: on a store with one unread message `5-x`, marking
the set containing the valid id `5-x` and the invalid id `bogus` twice
returns `markedRead = 1` on the second call as well — an already-read
message DOES count toward the returned total, so the second call does not
return zero. -/
theorem C1_counterexample :
    (mark_messages_read ["5-x", "bogus"]
      ((mark_messages_read ["5-x", "bogus"] cexC1_state).1)).2 =
        ToolResult.markOk 1 ∧
    ToolResult.markOk 1 ≠ ToolResult.markOk 0 := by
  decide

/-- C1 amended: `mark_messages_read` sets `read=true` on exactly the
messages whose id is in the given set (valid unknown ids are ignored,
positions and all other messages untouched), and returns the count of ALL
matched messages regardless of their prior read state; repeating the call
leaves the store unchanged and returns the same count again (not zero). -/
theorem markOne_id (ids : List String) (m : Message) :
    (markOne ids m).id = m.id := by
  unfold markOne; split <;> rfl

theorem markOne_idem (ids : List String) (m : Message) :
    markOne ids (markOne ids m) = markOne ids m := by
  unfold markOne
  by_cases h : ids.contains m.id
  · rw [if_pos h,
      if_pos (show ids.contains ({ m with read := true } : Message).id = true from h)]
  · rw [if_neg h, if_neg h]

theorem C1_markRead_amended (ids : List String) (s : State) :
    (∀ i : Nat, ((mark_messages_read ids s).1).messages[i]? =
      (s.messages[i]?).map (markOne ids)) ∧
    (mark_messages_read ids s).2 =
      ToolResult.markOk (s.messages.countP (fun m => ids.contains m.id)) ∧
    (mark_messages_read ids ((mark_messages_read ids s).1)).1 =
      (mark_messages_read ids s).1 ∧
    (mark_messages_read ids ((mark_messages_read ids s).1)).2 =
      (mark_messages_read ids s).2 := by
  have hmap : ((s.messages.map (markOne ids)).map (markOne ids)) =
      s.messages.map (markOne ids) := by
    rw [List.map_map]
    exact List.map_congr_left (fun m _ => markOne_idem ids m)
  have hcount : (s.messages.map (markOne ids)).countP
      (fun m => ids.contains m.id) =
      s.messages.countP (fun m => ids.contains m.id) := by
    rw [List.countP_map]
    exact List.countP_congr (fun m _ => by
      simp [Function.comp, markOne_id])
  refine ⟨fun i => ?_, rfl, ?_, ?_⟩
  · simp [mark_messages_read, List.getElem?_map]
  · simp only [mark_messages_read]
    exact congrArg (fun l => { s with messages := l }) hmap
  · simp only [mark_messages_read]
    exact congrArg ToolResult.markOk hcount

/-! ## C5: get_messages -/

/-- C5: `get_messages(agent, unreadOnly)` mutates nothing and returns, in
insertion order, exactly the messages addressed to `agent` or to the
broadcast value `"all"`, restricted to unread ones when `unreadOnly` is
true (absent `unreadOnly` defaults to false), together with their count. -/
theorem C5_get_messages (agent : String) (unreadOnly : Option Bool) (s : State) :
    get_messages agent unreadOnly s =
      (s, .messagesList
        (specGetMessages agent (unreadOnly.getD false) s.messages).length
        (specGetMessages agent (unreadOnly.getD false) s.messages)) ∧
    ∀ m : Message, m ∈ specGetMessages agent (unreadOnly.getD false) s.messages ↔
      (m ∈ s.messages ∧ (m.toAgent = agent ∨ m.toAgent = "all") ∧
        (unreadOnly.getD false = true → m.read = false)) := by
  refine ⟨get_messages_eq_spec agent unreadOnly s, fun m => ?_⟩
  unfold specGetMessages
  rw [List.mem_filter]
  rcases unreadOnly.getD false with _ | _ <;> simp

/-! ## C7: update_context -/

/-- C7: each of the four context fields is overwritten exactly when it is
present in the argument record (`getD` of the optional argument), omitted
fields keep their previous value, `lastUpdated` is refreshed on every call,
and no other store is touched. -/
theorem C7_update_context (cb : Option String) (af rc : Option (List String))
    (nts : Option String) (tNow : Nat) (s : State) :
    ((update_context cb af rc nts tNow s).1).shared_context.currentBranch =
      cb.getD s.shared_context.currentBranch ∧
    ((update_context cb af rc nts tNow s).1).shared_context.activeFiles =
      af.getD s.shared_context.activeFiles ∧
    ((update_context cb af rc nts tNow s).1).shared_context.recentChanges =
      rc.getD s.shared_context.recentChanges ∧
    ((update_context cb af rc nts tNow s).1).shared_context.notes =
      nts.getD s.shared_context.notes ∧
    ((update_context cb af rc nts tNow s).1).shared_context.lastUpdated = tNow ∧
    ((update_context cb af rc nts tNow s).1).messages = s.messages ∧
    ((update_context cb af rc nts tNow s).1).tasks = s.tasks ∧
    (update_context cb af rc nts tNow s).2 =
      .contextOk ((update_context cb af rc nts tNow s).1).shared_context := by
  cases cb <;> cases af <;> cases rc <;> cases nts <;>
    simp [update_context]

/-! ## C8: update_task on an unknown id -/

/-- C8: an `update_task` call whose `taskId` matches no stored task returns
the structured error payload and leaves the whole store untouched. -/
theorem C8_update_task_not_found (taskId : String)
    (status notes : Option String) (tU tMI : Nat) (rM : String) (tM : Nat)
    (s : State) (h : ∀ t ∈ s.tasks, t.id ≠ taskId) :
    update_task taskId status notes tU tMI rM tM s =
      (s, .error "Task not found") := by
  have hf : s.tasks.find? (fun t => t.id == taskId) = none := by
    rw [List.find?_eq_none]
    intro t ht
    simpa using h t ht
  simp [update_task, hf]

/-- C8 witness: updating a missing task id on the initial store. -/
theorem C8_update_task_not_found_witness :
    update_task "nope" (some "completed") (some "n") 1 2 "r" 3 (initialState 0) =
      (initialState 0, .error "Task not found") :=
  C8_update_task_not_found "nope" (some "completed") (some "n") 1 2 "r" 3
    (initialState 0) (by simp [initialState])

/-! ## C2: update_task completion notification -/

theorem containsStr_completion_title (title notes : String) :
    ContainsStr (completionContent title notes) title := by
  refine ⟨"✅ Completed: \"",
    "\"" ++ (if notes == "" then "" else " - " ++ notes), ?_⟩
  unfold completionContent
  rw [String.append_assoc ("✅ Completed: \"" ++ title)]

theorem containsStr_completion_notes (title notes : String) :
    ContainsStr (completionContent title notes) notes := by
  by_cases h : notes = ""
  · subst h
    exact ⟨completionContent title "", "", by simp⟩
  · refine ⟨"✅ Completed: \"" ++ title ++ "\"" ++ " - ", "", ?_⟩
    unfold completionContent
    rw [if_neg (by simpa using h)]
    simp only [String.append_assoc, String.append_empty]

def cexC2_s1 : State :=
  (create_task "T" "D" "bob" "alice" none none 1 "a" 2 3 4 "b" 5
    (initialState 0)).1

def cexC2_s2 : State :=
  (update_task "1-a" (some "completed") none 6 7 "c" 8 cexC2_s1).1

/-- C2 counterexample: after creating task `1-a` and completing it (store
`cexC2_s2`, whose single task has status `completed` and which holds two
messages), a further `update_task` on the existing task `1-a` that supplies
only `notes` leaves the resulting status `completed` but appends NO
completion notification — the message list is unchanged, contradicting the
claim that a resulting status of `completed` always yields exactly one new
notification. -/
theorem C2_counterexample :
    (cexC2_s2.tasks.map (fun t => (t.id, t.status)) = [("1-a", "completed")]) ∧
    ((update_task "1-a" none (some "done") 9 10 "d" 11 cexC2_s2).1.messages =
      cexC2_s2.messages) ∧
    ((update_task "1-a" none (some "done") 9 10 "d" 11 cexC2_s2).1.tasks.map
      (fun t => t.status) = ["completed"]) ∧
    cexC2_s2.messages.length = 2 := by
  decide

/-- C2 amended: for an `update_task` call on an existing task, exactly one
completion notification (from the task's `assignedTo` to its `createdBy`,
body containing the task title and, when supplied, the notes text) is
appended iff the `status` ARGUMENT of the call equals `"completed"`; when
the status argument is anything else or absent, no message is appended —
even if the task's carried-over status is already `completed`. -/
theorem C2_update_task_amended (taskId : String) (status notes : Option String)
    (tU tMI : Nat) (rM : String) (tM : Nat) (s : State) (task : Task)
    (hfind : s.tasks.find? (fun t => t.id == taskId) = some task) :
    (status = some "completed" →
      ((update_task taskId status notes tU tMI rM tM s).1).messages =
        s.messages ++
          [{ id := generate_id tMI rM, fromAgent := task.assignedTo,
             toAgent := task.createdBy,
             content := completionContent task.title (notes.getD ""),
             timestamp := tM, read := false }] ∧
      ContainsStr (completionContent task.title (notes.getD "")) task.title ∧
      ∀ n, notes = some n →
        ContainsStr (completionContent task.title (notes.getD "")) n) ∧
    (status ≠ some "completed" →
      ((update_task taskId status notes tU tMI rM tM s).1).messages =
        s.messages) := by
  constructor
  · intro hst
    subst hst
    refine ⟨?_, containsStr_completion_title _ _, fun n hn => by
      rw [hn]
      exact containsStr_completion_notes _ _⟩
    simp [update_task, hfind]
  · intro hst
    have hb : (status == some "completed") = false := by
      rw [beq_eq_false_iff_ne]
      exact hst
    simp [update_task, hfind, hb]

def cexC2w_task : Task :=
  { id := "9-z", title := "Ship it", description := "D", assignedTo := "bob",
    createdBy := "alice", status := "in_progress", priority := "high",
    createdAt := 2, updatedAt := 3, context := [] }

def cexC2w_state : State :=
  { messages := [], tasks := [cexC2w_task],
    shared_context := (initialState 0).shared_context }

/-- C2 witness: the amended theorem applied to a concrete in-progress task
completed with notes `"x"`. -/
theorem C2_update_task_amended_witness :
    ((some "completed" : Option String) = some "completed" →
      ((update_task "9-z" (some "completed") (some "x") 6 7 "c" 8
          cexC2w_state).1).messages =
        cexC2w_state.messages ++
          [{ id := generate_id 7 "c", fromAgent := cexC2w_task.assignedTo,
             toAgent := cexC2w_task.createdBy,
             content := completionContent cexC2w_task.title
               ((some "x" : Option String).getD ""),
             timestamp := 8, read := false }] ∧
      ContainsStr (completionContent cexC2w_task.title
        ((some "x" : Option String).getD "")) cexC2w_task.title ∧
      ∀ n, (some "x" : Option String) = some n →
        ContainsStr (completionContent cexC2w_task.title
          ((some "x" : Option String).getD "")) n) ∧
    ((some "completed" : Option String) ≠ some "completed" →
      ((update_task "9-z" (some "completed") (some "x") 6 7 "c" 8
          cexC2w_state).1).messages = cexC2w_state.messages) :=
  C2_update_task_amended "9-z" (some "completed") (some "x") 6 7 "c" 8
    cexC2w_state cexC2w_task (by decide)

/-! ## C4: read is monotonic across every operation -/

theorem markOne_read_mono (ids : List String) (m : Message)
    (h : m.read = true) : (markOne ids m).read = true := by
  unfold markOne
  split
  · rfl
  · exact h

/-- Every operation of the catalog either leaves the message list intact,
appends one message to it, or maps `markOne` over it. -/
theorem applyOp_messages_shape (op : Op) (s : State) :
    ((applyOp op s).1).messages = s.messages ∨
    (∃ x, ((applyOp op s).1).messages = s.messages ++ [x]) ∨
    (∃ ids, ((applyOp op s).1).messages = s.messages.map (markOne ids)) := by
  cases op with
  | send_message f t c tId rId tMsg => exact Or.inr (Or.inl ⟨_, rfl⟩)
  | get_messages a u => exact Or.inl rfl
  | mark_messages_read ids => exact Or.inr (Or.inr ⟨ids, rfl⟩)
  | create_task ti d a c p cx tT rT tC tUp tMI rM tM =>
      exact Or.inr (Or.inl ⟨_, rfl⟩)
  | get_tasks a f st => exact Or.inl rfl
  | update_task id st n tUp tMI rM tM =>
      simp only [applyOp, update_task]
      cases hfind : s.tasks.find? (fun t => t.id == id) with
      | none => exact Or.inl rfl
      | some task =>
        by_cases hst : (st == some "completed") = true
        · simp only [hst, if_true]
          exact Or.inr (Or.inl ⟨_, rfl⟩)
        · simp only [eq_false_of_ne_true hst, if_false]
          exact Or.inl rfl
  | update_context cb af rc n t => exact Or.inl rfl
  | get_context => exact Or.inl rfl
  | announce_presence a st w tId rId tMsg => exact Or.inr (Or.inl ⟨_, rfl⟩)

/-- C4: for every store state and every operation of the catalog, a message
whose `read` flag is true keeps a true `read` flag (at the same position)
after the operation — no operation ever resets `read` to false. -/
theorem C4_read_monotonic (op : Op) (s : State) (i : Nat) (m : Message)
    (hm : s.messages[i]? = some m) (hr : m.read = true) :
    ∃ m', ((applyOp op s).1).messages[i]? = some m' ∧ m'.read = true := by
  have hi : i < s.messages.length := by
    by_contra hlt
    rw [List.getElem?_eq_none (by omega)] at hm
    exact Option.noConfusion hm
  rcases applyOp_messages_shape op s with h | ⟨x, h⟩ | ⟨ids, h⟩
  · exact ⟨m, by rw [h]; exact hm, hr⟩
  · refine ⟨m, ?_, hr⟩
    rw [h, List.getElem?_append]
    rw [if_pos hi]
    exact hm
  · refine ⟨markOne ids m, ?_, markOne_read_mono ids m hr⟩
    rw [h, List.getElem?_map, hm]
    rfl

def cexC4_msg : Message :=
  { id := "5-x", fromAgent := "a", toAgent := "b", content := "hi",
    timestamp := 5, read := true }

def cexC4_state : State :=
  { messages := [cexC4_msg], tasks := [],
    shared_context := (initialState 0).shared_context }

/-- C4 witness: a read message stays read across a `mark_messages_read`
call that does not even target it. -/
theorem C4_read_monotonic_witness :
    ∃ m', ((applyOp (Op.mark_messages_read ["zzz"]) cexC4_state).1).messages[0]? =
      some m' ∧ m'.read = true :=
  C4_read_monotonic (Op.mark_messages_read ["zzz"]) cexC4_state 0 cexC4_msg
    (by decide) (by decide)

/-! ## C6: create_task -/

theorem specGetMessages_append (agent : String) (u : Bool)
    (l1 l2 : List Message) :
    specGetMessages agent u (l1 ++ l2) =
      specGetMessages agent u l1 ++ specGetMessages agent u l2 :=
  List.filter_append _ _

def cexC6_s1 : State :=
  (create_task "T" "D1" "bob" "alice" none none 10 "r1" 11 12 13 "r2" 14
    (initialState 0)).1

def cexC6_s2 : State :=
  (create_task "T" "D2" "bob" "carol" none none 20 "r3" 21 22 23 "r4" 24
    cexC6_s1).1

/-- C6 counterexample: the created tasks record `createdAt = 11 ≠ 12 =
updatedAt` (two separate clock samples), and after two `create_task` calls
with the same title `"T"` assigned to `bob`, `get_messages("bob", true)`
returns TWO unread notifications each referencing `"T"` — not exactly
one. -/
theorem C6_counterexample :
    (cexC6_s2.tasks.map (fun t => (t.createdAt, t.updatedAt)) =
      [(11, 12), (21, 22)]) ∧
    (11 : Nat) ≠ 12 ∧
    ((get_messages "bob" (some true) cexC6_s2).2 =
      .messagesList 2
        [{ id := "13-r2", fromAgent := "alice", toAgent := "bob",
           content := taskNotificationContent "T" "medium",
           timestamp := 14, read := false },
         { id := "23-r4", fromAgent := "carol", toAgent := "bob",
           content := taskNotificationContent "T" "medium",
           timestamp := 24, read := false }]) ∧
    ContainsStr (taskNotificationContent "T" "medium") "T" := by
  refine ⟨by decide, by decide, by decide,
    ⟨"📋 New task: \"", "\" (medium)", by decide⟩⟩

/-- C6 amended: every `create_task` call succeeds, appends exactly one
task with status `pending` whose `createdAt` and `updatedAt` are the two
clock samples taken during the call (equal exactly when those samples
coincide, not in general), and appends exactly one unread notification
message `from=createdBy, to=assignedTo` whose body names the task title
and priority; `get_messages(assignedTo, true)` immediately afterwards
returns exactly the previously-visible unread messages plus this one new
notification (exactly one notification referencing the title is GAINED;
the total referencing it need not be one). -/
theorem C6_create_task_amended (title description assignedTo createdBy : String)
    (priority : Option String) (context : Option (List (String × String)))
    (tT : Nat) (rT : String) (tC tU tMI : Nat) (rM : String) (tM : Nat)
    (s : State) :
    (create_task title description assignedTo createdBy priority context
        tT rT tC tU tMI rM tM s).2 = .createOk (generate_id tT rT) ∧
    ((create_task title description assignedTo createdBy priority context
        tT rT tC tU tMI rM tM s).1).tasks = s.tasks ++
      [{ id := generate_id tT rT, title := title, description := description,
         assignedTo := assignedTo, createdBy := createdBy,
         status := "pending", priority := priority.getD "medium",
         createdAt := tC, updatedAt := tU, context := context.getD [] }] ∧
    ((create_task title description assignedTo createdBy priority context
        tT rT tC tU tMI rM tM s).1).messages = s.messages ++
      [{ id := generate_id tMI rM, fromAgent := createdBy,
         toAgent := assignedTo,
         content := taskNotificationContent title (priority.getD "medium"),
         timestamp := tM, read := false }] ∧
    ContainsStr (taskNotificationContent title (priority.getD "medium"))
      title ∧
    ContainsStr (taskNotificationContent title (priority.getD "medium"))
      (priority.getD "medium") ∧
    (get_messages assignedTo (some true)
        ((create_task title description assignedTo createdBy priority context
          tT rT tC tU tMI rM tM s).1)).2 =
      .messagesList ((specGetMessages assignedTo true s.messages).length + 1)
        (specGetMessages assignedTo true s.messages ++
          [{ id := generate_id tMI rM, fromAgent := createdBy,
             toAgent := assignedTo,
             content := taskNotificationContent title (priority.getD "medium"),
             timestamp := tM, read := false }]) := by
  refine ⟨rfl, rfl, rfl,
    ⟨"📋 New task: \"", "\" (" ++ (priority.getD "medium") ++ ")", by
      simp only [taskNotificationContent, String.append_assoc]⟩,
    ⟨"📋 New task: \"" ++ title ++ "\" (", ")", by
      simp only [taskNotificationContent, String.append_assoc]⟩, ?_⟩
  rw [show (get_messages assignedTo (some true)
      ((create_task title description assignedTo createdBy priority context
        tT rT tC tU tMI rM tM s).1)).2 =
    .messagesList
      (specGetMessages assignedTo true
        (((create_task title description assignedTo createdBy priority context
          tT rT tC tU tMI rM tM s).1)).messages).length
      (specGetMessages assignedTo true
        (((create_task title description assignedTo createdBy priority context
          tT rT tC tU tMI rM tM s).1)).messages) from
    congrArg Prod.snd (get_messages_eq_spec assignedTo (some true) _)]
  have hmsgs : ((create_task title description assignedTo createdBy priority
      context tT rT tC tU tMI rM tM s).1).messages = s.messages ++
      [{ id := generate_id tMI rM, fromAgent := createdBy,
         toAgent := assignedTo,
         content := taskNotificationContent title (priority.getD "medium"),
         timestamp := tM, read := false }] := rfl
  rw [hmsgs, specGetMessages_append]
  simp [specGetMessages]

/-! ## C9 and C10: get_tasks -/

theorem get_tasks_filter_eq (agent ft st : String) (l : List Task) :
    (if st != "all"
      then (if ft == "assigned"
              then l.filter (fun t => t.assignedTo == agent)
            else if ft == "created"
              then l.filter (fun t => t.createdBy == agent)
            else l).filter (fun t => t.status == st)
      else (if ft == "assigned"
              then l.filter (fun t => t.assignedTo == agent)
            else if ft == "created"
              then l.filter (fun t => t.createdBy == agent)
            else l)) = specGetTasks agent ft st l := by
  unfold specGetTasks
  by_cases hs : (st == "all") = true
  · rw [if_neg (by simp [bne, hs])]
    by_cases h1 : (ft == "assigned") = true
    · rw [if_pos h1]
      exact List.filter_congr (fun t _ => by simp [h1, hs])
    · rw [if_neg h1]
      by_cases h2 : (ft == "created") = true
      · rw [if_pos h2]
        exact List.filter_congr (fun t _ => by simp [h1, h2, hs])
      · rw [if_neg h2]
        have hP : List.filter
            (fun t : Task =>
              (if (ft == "assigned") = true then t.assignedTo == agent
               else if (ft == "created") = true then t.createdBy == agent
               else true) &&
              (if (st == "all") = true then true else t.status == st)) l =
            List.filter (fun _ => true) l :=
          List.filter_congr (fun t _ => by simp [h1, h2, hs])
        rw [hP, List.filter_true]
  · rw [if_pos (by simp [bne, hs])]
    by_cases h1 : (ft == "assigned") = true
    · rw [if_pos h1, List.filter_filter]
      exact List.filter_congr (fun t _ => by
        simp [h1, hs, Bool.and_comm])
    · rw [if_neg h1]
      by_cases h2 : (ft == "created") = true
      · rw [if_pos h2, List.filter_filter]
        exact List.filter_congr (fun t _ => by
          simp [h1, h2, hs, Bool.and_comm])
      · rw [if_neg h2]
        exact List.filter_congr (fun t _ => by simp [h1, h2, hs])

theorem get_tasks_eq_spec (agent : String) (filter status : Option String)
    (s : State) :
    get_tasks agent filter status s =
      (s, .tasksList
        (specGetTasks agent (filter.getD "assigned") (status.getD "all")
          s.tasks).length
        (specGetTasks agent (filter.getD "assigned") (status.getD "all")
          s.tasks)) := by
  have h := get_tasks_filter_eq agent (filter.getD "assigned")
    (status.getD "all") s.tasks
  simp only [get_tasks]
  rw [h]

/-- C9: for enum filter values (or an absent filter, defaulting to
`assigned`, and any status, defaulting to `all`), `get_tasks` mutates
nothing and returns, in insertion order, exactly the tasks passing the
role filter and the exact status restriction; in particular every task in
the `assigned`/`pending` listing is assigned to `agent` and pending. -/
theorem C9_get_tasks (agent : String) (filter status : Option String)
    (s : State)
    (h : filter.getD "assigned" = "assigned" ∨
      filter.getD "assigned" = "created" ∨ filter.getD "assigned" = "all") :
    get_tasks agent filter status s =
      (s, .tasksList
        (specGetTasks agent (filter.getD "assigned") (status.getD "all")
          s.tasks).length
        (specGetTasks agent (filter.getD "assigned") (status.getD "all")
          s.tasks)) ∧
    ∀ t ∈ specGetTasks agent "assigned" "pending" s.tasks,
      t.assignedTo = agent ∧ t.status = "pending" := by
  refine ⟨get_tasks_eq_spec agent filter status s, fun t ht => ?_⟩
  unfold specGetTasks at ht
  rw [List.mem_filter] at ht
  have hp := ht.2
  rw [if_pos (show (("assigned" : String) == "assigned") = true by decide),
    if_neg (show ¬ ((("pending" : String) == "all") = true) by decide),
    Bool.and_eq_true, beq_iff_eq, beq_iff_eq] at hp
  exact hp

def cexC9_task : Task :=
  { id := "1-a", title := "T", description := "D", assignedTo := "bob",
    createdBy := "alice", status := "pending", priority := "medium",
    createdAt := 2, updatedAt := 3, context := [] }

def cexC9_state : State :=
  { messages := [], tasks := [cexC9_task],
    shared_context := (initialState 0).shared_context }

/-- C9 witness: the theorem applied with an absent filter and status on a
store holding one pending task assigned to `bob`. -/
theorem C9_get_tasks_witness :
    (get_tasks "bob" none none cexC9_state =
      (cexC9_state, .tasksList
        (specGetTasks "bob" ((none : Option String).getD "assigned")
          ((none : Option String).getD "all") cexC9_state.tasks).length
        (specGetTasks "bob" ((none : Option String).getD "assigned")
          ((none : Option String).getD "all") cexC9_state.tasks))) ∧
    ∀ t ∈ specGetTasks "bob" "assigned" "pending" cexC9_state.tasks,
      t.assignedTo = "bob" ∧ t.status = "pending" :=
  C9_get_tasks "bob" none none cexC9_state (Or.inl rfl)

/-- C10: a `get_tasks` call whose filter value lies outside
`{assigned, created, all}` applies no role filter at all: it behaves
exactly as `filter="all"`, returning every task that passes only the
status restriction. -/
theorem C10_get_tasks_unknown_filter (agent ft : String)
    (status : Option String) (s : State)
    (h : ft ∉ (["assigned", "created", "all"] : List String)) :
    get_tasks agent (some ft) status s =
      get_tasks agent (some "all") status s ∧
    get_tasks agent (some ft) status s =
      (s, .tasksList
        (specGetTasks agent "all" (status.getD "all") s.tasks).length
        (specGetTasks agent "all" (status.getD "all") s.tasks)) := by
  have hne : ft ≠ "assigned" ∧ ft ≠ "created" := by
    simp only [List.mem_cons, not_or] at h
    exact ⟨h.1, h.2.1⟩
  have hb1 : (ft == "assigned") = false := beq_eq_false_iff_ne.mpr hne.1
  have hb2 : (ft == "created") = false := beq_eq_false_iff_ne.mpr hne.2
  have hcongr : specGetTasks agent ft (status.getD "all") s.tasks =
      specGetTasks agent "all" (status.getD "all") s.tasks := by
    unfold specGetTasks
    exact List.filter_congr (fun t _ => by
      simp [hb1, hb2,
        show (("all" : String) == "assigned") = false by decide,
        show (("all" : String) == "created") = false by decide])
  have key : get_tasks agent (some ft) status s =
      (s, .tasksList
        (specGetTasks agent "all" (status.getD "all") s.tasks).length
        (specGetTasks agent "all" (status.getD "all") s.tasks)) := by
    rw [get_tasks_eq_spec agent (some ft) status s]
    simp only [Option.getD_some]
    rw [hcongr]
  refine ⟨?_, key⟩
  rw [key, get_tasks_eq_spec agent (some "all") status s]
  simp only [Option.getD_some]

def cexC10_task : Task :=
  { id := "1-a", title := "T", description := "D", assignedTo := "bob",
    createdBy := "alice", status := "pending", priority := "medium",
    createdAt := 2, updatedAt := 3, context := [] }

def cexC10_state : State :=
  { messages := [], tasks := [cexC10_task],
    shared_context := (initialState 0).shared_context }

/-- C10 witness: an out-of-enum filter value `"bogus"` queried by an agent
who is neither assignee nor creator still lists the stored task. -/
theorem C10_get_tasks_unknown_filter_witness :
    (get_tasks "zed" (some "bogus") none cexC10_state =
      get_tasks "zed" (some "all") none cexC10_state) ∧
    get_tasks "zed" (some "bogus") none cexC10_state =
      (cexC10_state, .tasksList
        (specGetTasks "zed" "all" ((none : Option String).getD "all")
          cexC10_state.tasks).length
        (specGetTasks "zed" "all" ((none : Option String).getD "all")
          cexC10_state.tasks)) :=
  C10_get_tasks_unknown_filter "zed" "bogus" none cexC10_state (by decide)

end Bridge
